import Mathlib

/-!
Shallow embedding of `server.go` from achiku/sample-golang-custom-handler.

The file contains two variants of a per-request transaction wrapper:

* `transactionMiddleware` (an `xhandler` middleware): `DB.Begin()`, on error
  `log.Fatal`; otherwise stores the `*sql.Tx` in the context, logs the header,
  calls `next.ServeHTTPC`, sets a header, logs again, and calls `tx.Commit()`
  unconditionally, discarding its result.  There is no rollback path at all.

* `TransactionHandlerC.ServeHTTPC`: `tx, err := DB.Begin()`, then
  `defer tx.Rollback()` (before the error check), then `if err != nil`
  writes `http.Error(w, err.Error(), 500)` WITHOUT returning, stores `tx`
  (possibly nil) in the context, invokes the wrapped handler, and on a
  handler error writes `http.Error(w, err.Error(), status)`.  There is no
  commit at all; the deferred rollback runs on every exit, and runs on a
  nil handle when `Begin` failed.

Handlers are modelled by their effect on the response writer together with
their outcome (return of `(status, error)`, or a panic).  The database
round-trip `tx.QueryRow("SELECT now()").Scan(&t)` is a parameter of each
handler model (`Except String String`: the error, or the scanned time as a
string), and `DB.Begin()` is a parameter of each wrapper model
(`Except String Nat`: the error, or a fresh transaction id).
-/

namespace Server

/-- A `*sql.Tx` pointer: `none` models a nil pointer (what `DB.Begin`
returns alongside a non-nil error). -/
abbrev TxPtr := Option Nat

/-- Execution context, reduced to the one key the program uses:
`txVal = none` models a context that was never wrapped (no value stored
under `ctxTxKey`), `txVal = some p` models `context.WithValue(ctx, ctxTxKey, p)`
where `p` is the (possibly nil) `*sql.Tx`. -/
structure Ctx where
  txVal : Option TxPtr
deriving Repr, DecidableEq

/-- The HTTP response sink, with `net/http` semantics: the first explicit
`WriteHeader` wins, and a body write with no prior explicit status
implicitly sets status 200. -/
structure Response where
  status : Option Nat
  body : String
deriving Repr, DecidableEq

/-- A fresh `httptest`-style recorder: nothing written yet. -/
def Response.empty : Response := ⟨none, ""⟩

/-- `w.WriteHeader(code)`: only the first call takes effect. -/
def Response.writeHeader (w : Response) (code : Nat) : Response :=
  match w.status with
  | none => ⟨some code, w.body⟩
  | some _ => w

/-- `w.Write` / `fmt.Fprintf(w, ...)`: appends to the body, implicitly
committing status 200 when no status was written yet. -/
def Response.write (w : Response) (s : String) : Response :=
  match w.status with
  | none => ⟨some 200, w.body ++ s⟩
  | some _ => ⟨w.status, w.body ++ s⟩

/-- `http.Error(w, msg, code)`: writes the status, then the message
followed by a newline, as a plain-text body. -/
def httpError (w : Response) (msg : String) (code : Nat) : Response :=
  (w.writeHeader code).write (msg ++ "\n")

/-- The body produced by `json.NewEncoder(w).Encode(map[string]string{"message": msg})`:
a JSON object followed by the encoder's trailing newline. -/
def jsonMessageBody (msg : String) : String :=
  "\x7b\"message\":\"" ++ msg ++ "\"\x7d\n"

/-- `App.sendSimpleErrorMessage` (first variant): `WriteHeader(500)` then the
JSON `message` object. -/
def sendSimpleErrorMessage (w : Response) (msg : String) : Response :=
  (w.writeHeader 500).write (jsonMessageBody msg)

/-- The Go runtime message for a method call through a nil pointer. -/
def nilDerefMsg : String :=
  "runtime error: invalid memory address or nil pointer dereference"

/-- The panic message of the failed type assertion
`ctx.Value(ctxTxKey).(*sql.Tx)` on a context holding no value under the key. -/
def txAssertMsg : String :=
  "interface conversion: interface is nil, not *sql.Tx"

/-- `getTx(ctx) = ctx.Value(ctxTxKey).(*sql.Tx)`.  On a context that was
never wrapped the stored value is absent (the lookup yields nil) and the
single-result type assertion panics; the model returns `Except.error` for
that panic.  When a value is stored — even a nil `*sql.Tx` — the assertion
succeeds and the stored pointer is returned. -/
def getTx (ctx : Ctx) : Except String TxPtr :=
  match ctx.txVal with
  | none => .error txAssertMsg
  | some p => .ok p

/-- Outcome of one invocation of a context-carrying handler
(`func(context.Context, http.ResponseWriter, *http.Request) (int, error)`):
a normal return of `(status, err)` with `err` optional, or a panic. -/
inductive HandlerStep where
  | ret (status : Nat) (err : Option String)
  | panic (msg : String)
deriving Repr, DecidableEq

/-- A context-carrying handler, modelled by its effect on the response
writer and its outcome. -/
abbrev HandlerF := Ctx → Response → Response × HandlerStep

/-- Outcome of one invocation of a void `xhandler.HandlerC`
(`ServeHTTPC(ctx, w, r)`, no return value): normal completion or a panic. -/
inductive CStep where
  | done
  | panic (msg : String)
deriving Repr, DecidableEq

/-- A void context handler (first variant), modelled by its effect on the
response writer and whether it panics. -/
abbrev HandlerCF := Ctx → Response → Response × CStep

/-- `AppHandlerC.ServeHTTPC`: run the handler; if it returned a non-nil
error, write `http.Error(w, err.Error(), status)`; otherwise write nothing
more.  A handler panic propagates (second component). -/
def AppHandlerC.ServeHTTPC (ah : HandlerF) (ctx : Ctx) (w : Response) :
    Response × Option String :=
  match ah ctx w with
  | (w1, .ret _ none) => (w1, none)
  | (w1, .ret status (some e)) => (httpError w1 e status, none)
  | (w1, .panic m) => (w1, some m)

/-- Observable outcome of one request through `TransactionHandlerC.ServeHTTPC`. -/
structure WrapOut where
  /-- final state of the response writer -/
  resp : Response
  /-- number of `tx.Commit()` calls issued by the wrapper -/
  commits : Nat
  /-- number of `tx.Rollback()` calls issued on a real (non-nil) handle -/
  rollbacks : Nat
  /-- the deferred `tx.Rollback()` ran on a nil handle -/
  nilRollback : Bool
  /-- the wrapped handler was invoked -/
  handlerRan : Bool
  /-- messages the wrapper logged -/
  logs : List String
  /-- a panic propagating out of the wrapper, if any -/
  panicked : Option String
deriving Repr, DecidableEq

/-- `TransactionHandlerC.ServeHTTPC`:

```go
tx, err := ah.App.DB.Begin()
defer tx.Rollback()
if err != nil {
    http.Error(w, err.Error(), http.StatusInternalServerError)
}
ctx = context.WithValue(ctx, ctxTxKey, tx)
status, err := ah.H(ctx, w, r)
if err != nil {
    http.Error(w, err.Error(), status)
}
```

`beginRes` models `DB.Begin()` (`.ok id` returns a fresh handle, `.error e`
returns `(nil, e)`); `rbRes` models the result of the deferred
`tx.Rollback()`, which the code discards (the parameter is unused, exactly
as the return value is unused in the source).  Note the missing `return`
after the first `http.Error`: on a `Begin` failure the handler is still
invoked, with a nil `*sql.Tx` stored in the context, and the deferred
rollback then dereferences the nil handle, turning the exit into a panic. -/
def TransactionHandlerC.ServeHTTPC (beginRes : Except String Nat)
    (rbRes : Except String Unit) (H : HandlerF) (_ctx : Ctx) (w : Response) :
    WrapOut :=
  let txAndErr : TxPtr × Option String :=
    match beginRes with
    | .ok id => (some id, none)
    | .error e => (none, some e)
  let tx := txAndErr.1
  let w1 : Response :=
    match txAndErr.2 with
    | some e => httpError w e 500
    | none => w
  let ctx1 : Ctx := ⟨some tx⟩
  let hres := H ctx1 w1
  let afterH : Response × Option String :=
    match hres.2 with
    | .ret _ none => (hres.1, none)
    | .ret status (some e) => (httpError hres.1 e status, none)
    | .panic m => (hres.1, some m)
  match tx, rbRes with
  | some _, _ =>
      ⟨afterH.1, 0, 1, false, true, [], afterH.2⟩
  | none, _ =>
      ⟨afterH.1, 0, 0, true, true, [], some nilDerefMsg⟩

/-- Observable outcome of one request through `transactionMiddleware`. -/
structure MWOut where
  /-- final state of the response writer -/
  resp : Response
  /-- number of `tx.Commit()` calls issued by the middleware -/
  commits : Nat
  /-- number of `tx.Rollback()` calls issued by the middleware -/
  rollbacks : Nat
  /-- the wrapped handler was invoked -/
  handlerRan : Bool
  /-- messages logged by the middleware -/
  logs : List String
  /-- `log.Fatal` was reached (process exit) -/
  fatal : Bool
  /-- a panic propagating out of the middleware, if any -/
  panicked : Option String
deriving Repr, DecidableEq

/-- The placeholder text for `log.Println(w.Header())` entries. -/
def headerLogMsg : String := "header-log"

/-- `App.transactionMiddleware` (first variant):

```go
tx, err := ap.DB.Begin()
if err != nil {
    log.Fatal(err)
}
ctx = context.WithValue(ctx, ctxTxKey, tx)
log.Println(w.Header())
next.ServeHTTPC(ctx, w, r)
w.Header().Set("Request-id", "Request ids!")
log.Println(w.Header())
tx.Commit()
```

`commitRes` models the result of `tx.Commit()`, which the code discards
(the parameter is unused, exactly as the return value is unused in the
source).  On a `Begin` failure the process dies (`log.Fatal`); on a handler
panic the trailing lines — including the commit — never run, and there is
no deferred rollback, so the transaction is left open. -/
def transactionMiddleware (beginRes : Except String Nat)
    (commitRes : Except String Unit) (next : HandlerCF) (_ctx : Ctx)
    (w : Response) : MWOut :=
  match beginRes with
  | .error e => ⟨w, 0, 0, false, [e], true, none⟩
  | .ok id =>
    let ctx1 : Ctx := ⟨some (some id)⟩
    match next ctx1 w with
    | (w1, .done) =>
        ⟨w1, 1, 0, true, [headerLogMsg, headerLogMsg], false, none⟩
    | (w1, .panic m) =>
        ⟨w1, 0, 0, true, [headerLogMsg], false, some m⟩

/-! ### The handlers defined in the program (second variant) -/

/-- `EchoApp.EchoServer`: writes `"hello, server!"`, returns `(200, nil)`. -/
def EchoServer : HandlerF := fun _ w =>
  (w.write "hello, server!", .ret 200 none)

/-- `helloret`: writes `"hello, world!"`, returns `(200, nil)`. -/
def helloret : HandlerF := fun _ w =>
  (w.write "hello, world!", .ret 200 none)

/-- `EchoApp.EchoDatabase` (second variant): `getTx(ctx)`, runs
`tx.QueryRow("SELECT now()").Scan(&t)`; on a query error returns
`(500, err)`; on success writes the greeting and returns `(200, nil)`.
A missing context value makes `getTx` panic before anything is written; a
nil stored handle makes `tx.QueryRow` panic before anything is written.
`q` models the query round-trip. -/
def EchoDatabase (q : Except String String) : HandlerF := fun ctx w =>
  match getTx ctx with
  | .error m => (w, .panic m)
  | .ok none => (w, .panic nilDerefMsg)
  | .ok (some _) =>
    match q with
    | .error e => (w, .ret 500 (some e))
    | .ok t => (w.write ("hello, database! at " ++ t), .ret 200 none)

/-- `hellotran`: same shape as `EchoDatabase`. -/
def hellotran (q : Except String String) : HandlerF := fun ctx w =>
  match getTx ctx with
  | .error m => (w, .panic m)
  | .ok none => (w, .panic nilDerefMsg)
  | .ok (some _) =>
    match q with
    | .error e => (w, .ret 500 (some e))
    | .ok t => (w.write ("hello, database! at " ++ t), .ret 200 none)

/-- `tranSelect`: same shape, different success message. -/
def tranSelect (q : Except String String) : HandlerF := fun ctx w =>
  match getTx ctx with
  | .error m => (w, .panic m)
  | .ok none => (w, .panic nilDerefMsg)
  | .ok (some _) =>
    match q with
    | .error e => (w, .ret 500 (some e))
    | .ok t => (w.write ("hello, from database at " ++ t ++ " !"), .ret 200 none)

/-- `DBApp.notranSelect`: queries the pool directly (no `getTx`); on error
returns `(500, err)`, on success writes and returns `(200, nil)`. -/
def notranSelect (q : Except String String) : HandlerF := fun _ w =>
  match q with
  | .error e => (w, .ret 500 (some e))
  | .ok t => (w.write ("hello, from database at " ++ t ++ " !"), .ret 200 none)

/-- The Handler Result invariant of the spec, as a predicate on one
invocation's result: a non-nil error comes with a non-2xx status, and a nil
error means the returned status is the response's effective status. -/
def handlerResultInvariant (r : Response × HandlerStep) : Prop :=
  match r.2 with
  | .ret st (some _) => ¬ (200 ≤ st ∧ st < 300)
  | .ret st none => r.1.status = some st
  | .panic _ => True

end Server

/-! ### Claims -/

namespace Server

/-- C1: the claim says a handler invocation that returns no error has its
transaction committed exactly once and never rolled back.  On the code this
fails: `TransactionHandlerC.ServeHTTPC` contains no commit at all, and its
deferred rollback runs on every exit.  This theorem evaluates the wrapper at
the failing input — a successful `Begin` and the `tranSelect` handler with a
successful query (the `/api/select/tran` route, documented in the README as
"begin/commit") — and shows zero commits and one rollback on the success
path. -/
theorem C1_success_path_rolls_back :
    (TransactionHandlerC.ServeHTTPC (.ok 1) (.ok ()) (tranSelect (.ok "now"))
      ⟨none⟩ Response.empty).commits = 0 ∧
    (TransactionHandlerC.ServeHTTPC (.ok 1) (.ok ()) (tranSelect (.ok "now"))
      ⟨none⟩ Response.empty).rollbacks = 1 ∧
    (TransactionHandlerC.ServeHTTPC (.ok 1) (.ok ()) (tranSelect (.ok "now"))
      ⟨none⟩ Response.empty).panicked = none :=
  ⟨rfl, rfl, rfl⟩

/-- C2: for every handler invocation under `TransactionHandlerC` that
returns a non-nil error, the transaction is rolled back exactly once (the
deferred rollback) and never committed. -/
theorem C2_rollback_on_handler_error (id : Nat) (rbRes : Except String Unit)
    (H : HandlerF) (ctx : Ctx) (w w2 : Response) (st : Nat) (e : String)
    (h : H ⟨some (some id)⟩ w = (w2, .ret st (some e))) :
    (TransactionHandlerC.ServeHTTPC (.ok id) rbRes H ctx w).rollbacks = 1 ∧
    (TransactionHandlerC.ServeHTTPC (.ok id) rbRes H ctx w).commits = 0 := by
  simp [TransactionHandlerC.ServeHTTPC, h]

/-- Witness for C2: the `tranSelect` handler with a failing query under a
successfully opened transaction. -/
theorem C2_rollback_on_handler_error_witness :
    (TransactionHandlerC.ServeHTTPC (.ok 1) (.ok ())
      (tranSelect (.error "syntax error")) ⟨none⟩ Response.empty).rollbacks = 1 ∧
    (TransactionHandlerC.ServeHTTPC (.ok 1) (.ok ())
      (tranSelect (.error "syntax error")) ⟨none⟩ Response.empty).commits = 0 :=
  C2_rollback_on_handler_error 1 (.ok ()) (tranSelect (.error "syntax error"))
    ⟨none⟩ Response.empty Response.empty 500 "syntax error" rfl

/-- C3: the claim says that when `DB.Begin` fails the failure is reported as
an internal server error and the wrapped handler is never invoked.  The
error response is indeed written, but the code is missing a `return` after
`http.Error`, so the handler IS invoked: here its output appears in the
body after the error text. -/
theorem C3_begin_failure_still_runs_handler :
    (TransactionHandlerC.ServeHTTPC (.error "pool exhausted") (.ok ())
      helloret ⟨none⟩ Response.empty).handlerRan = true ∧
    (TransactionHandlerC.ServeHTTPC (.error "pool exhausted") (.ok ())
      helloret ⟨none⟩ Response.empty).resp
      = ⟨some 500, "pool exhausted\nhello, world!"⟩ :=
  ⟨rfl, rfl⟩

/-- C4 counterexample: the claim says a panicking handler invocation always
has its transaction rolled back exactly once, with no path leaving it
neither committed nor rolled back.  In `transactionMiddleware` a handler
panic skips the unconditional `tx.Commit()` and there is no rollback path,
so the transaction is left neither committed nor rolled back. -/
theorem C4_counterexample :
    (transactionMiddleware (.ok 1) (.ok ()) (fun _ w => (w, .panic "boom"))
      ⟨none⟩ Response.empty).commits = 0 ∧
    (transactionMiddleware (.ok 1) (.ok ()) (fun _ w => (w, .panic "boom"))
      ⟨none⟩ Response.empty).rollbacks = 0 ∧
    (transactionMiddleware (.ok 1) (.ok ()) (fun _ w => (w, .panic "boom"))
      ⟨none⟩ Response.empty).panicked = some "boom" :=
  ⟨rfl, rfl, rfl⟩

/-- C4 amended: in `TransactionHandlerC` (only), whatever the handler
invocation does — return with or without an error, or panic — the deferred
rollback runs exactly once and there is no commit, so no path of that
wrapper leaks an open transaction. -/
theorem C4_amended_no_leak_in_handlerC (id : Nat) (rbRes : Except String Unit)
    (H : HandlerF) (ctx : Ctx) (w : Response) :
    (TransactionHandlerC.ServeHTTPC (.ok id) rbRes H ctx w).rollbacks = 1 ∧
    (TransactionHandlerC.ServeHTTPC (.ok id) rbRes H ctx w).commits = 0 :=
  ⟨rfl, rfl⟩

/-- C5: on a context never wrapped by the transaction wrapper, `getTx`
panics (failed type assertion) instead of returning nil data, and each
handler that calls it panics before writing anything to the response: the
response comes back unchanged and the panic propagates through the
dispatcher. -/
theorem C5_getTx_unwrapped_panics :
    ∀ (q : Except String String) (w : Response),
    getTx ⟨none⟩ = .error txAssertMsg ∧
    tranSelect q ⟨none⟩ w = (w, .panic txAssertMsg) ∧
    hellotran q ⟨none⟩ w = (w, .panic txAssertMsg) ∧
    EchoDatabase q ⟨none⟩ w = (w, .panic txAssertMsg) ∧
    AppHandlerC.ServeHTTPC (tranSelect q) ⟨none⟩ w = (w, some txAssertMsg) :=
  fun _ _ => ⟨rfl, rfl, rfl, rfl, rfl⟩

/-- C6: both dispatchers of the context-carrying handler contract —
`AppHandlerC.ServeHTTPC` and `TransactionHandlerC.ServeHTTPC` — write
`http.Error(w, err.Error(), status)` exactly when the handler returned a
non-nil error, and write nothing further when the error is nil, leaving
the response exactly as the handler wrote it (in the transaction wrapper,
the handler runs at the context carrying the opened transaction, and a nil
error means a normal, non-panicking exit). -/
theorem C6_dispatch_error_rendering (H : HandlerF) (ctx : Ctx)
    (w w2 : Response) (st : Nat) (id : Nat) (rbRes : Except String Unit) :
    (H ctx w = (w2, .ret st none) →
      AppHandlerC.ServeHTTPC H ctx w = (w2, none)) ∧
    (∀ e, H ctx w = (w2, .ret st (some e)) →
      AppHandlerC.ServeHTTPC H ctx w = (httpError w2 e st, none)) ∧
    (H ⟨some (some id)⟩ w = (w2, .ret st none) →
      (TransactionHandlerC.ServeHTTPC (.ok id) rbRes H ctx w).resp = w2 ∧
      (TransactionHandlerC.ServeHTTPC (.ok id) rbRes H ctx w).panicked
        = none) ∧
    (∀ e, H ⟨some (some id)⟩ w = (w2, .ret st (some e)) →
      (TransactionHandlerC.ServeHTTPC (.ok id) rbRes H ctx w).resp
        = httpError w2 e st ∧
      (TransactionHandlerC.ServeHTTPC (.ok id) rbRes H ctx w).panicked
        = none) := by
  refine ⟨?_, ?_, ?_, ?_⟩
  · intro h
    simp [AppHandlerC.ServeHTTPC, h]
  · intro e h
    simp [AppHandlerC.ServeHTTPC, h]
  · intro h
    simp [TransactionHandlerC.ServeHTTPC, h]
  · intro e h
    simp [TransactionHandlerC.ServeHTTPC, h]

/-- Witness for C6: through the plain dispatcher, a successful handler's
body is passed through untouched and a failing handler's error is rendered
with its status; through the transaction wrapper likewise, on the
`/api/select/tran` handler with a succeeding and a failing query. -/
theorem C6_dispatch_error_rendering_witness :
    (AppHandlerC.ServeHTTPC helloret ⟨none⟩ Response.empty
      = (⟨some 200, "hello, world!"⟩, none)) ∧
    (AppHandlerC.ServeHTTPC (notranSelect (.error "bad query")) ⟨none⟩
      Response.empty = (httpError Response.empty "bad query" 500, none)) ∧
    ((TransactionHandlerC.ServeHTTPC (.ok 1) (.ok ()) (tranSelect (.ok "now"))
        ⟨none⟩ Response.empty).resp
      = Response.empty.write "hello, from database at now !" ∧
     (TransactionHandlerC.ServeHTTPC (.ok 1) (.ok ()) (tranSelect (.ok "now"))
        ⟨none⟩ Response.empty).panicked = none) ∧
    ((TransactionHandlerC.ServeHTTPC (.ok 1) (.ok ())
        (tranSelect (.error "bad query")) ⟨none⟩ Response.empty).resp
      = httpError Response.empty "bad query" 500 ∧
     (TransactionHandlerC.ServeHTTPC (.ok 1) (.ok ())
        (tranSelect (.error "bad query")) ⟨none⟩ Response.empty).panicked
      = none) :=
  ⟨(C6_dispatch_error_rendering helloret ⟨none⟩ Response.empty
      ⟨some 200, "hello, world!"⟩ 200 1 (.ok ())).1 rfl,
   (C6_dispatch_error_rendering (notranSelect (.error "bad query")) ⟨none⟩
      Response.empty Response.empty 500 1 (.ok ())).2.1 "bad query" rfl,
   (C6_dispatch_error_rendering (tranSelect (.ok "now")) ⟨none⟩
      Response.empty (Response.empty.write "hello, from database at now !")
      200 1 (.ok ())).2.2.1 rfl,
   (C6_dispatch_error_rendering (tranSelect (.error "bad query")) ⟨none⟩
      Response.empty Response.empty 500 1 (.ok ())).2.2.2 "bad query" rfl⟩

/-- C7 counterexample: the claim says every error response for a failed
query has a JSON body of the shape written by the JSON encoder.  For the
handlers dispatched through the handler contract, the error response is
produced by `http.Error`, whose body is the plain error text plus a
newline — not the JSON object. -/
theorem C7_counterexample :
    AppHandlerC.ServeHTTPC (notranSelect (.error "syntax error")) ⟨none⟩
      Response.empty = (⟨some 500, "syntax error\n"⟩, none) ∧
    "syntax error\n" ≠ jsonMessageBody "syntax error" :=
  ⟨rfl, by decide⟩

/-- C7 amended: an error response produced through either handler-contract
dispatcher — `AppHandlerC.ServeHTTPC` on a failing `notranSelect` query and
`TransactionHandlerC.ServeHTTPC` on a failing `tranSelect` query — has the
5xx status returned by the handler and the plain-text body
`err.Error() + "\n"` written by `http.Error`; only `sendSimpleErrorMessage`
(used by the first variant's handlers) produces the JSON body with status
500. -/
theorem C7_amended_error_shapes (e msg : String) :
    AppHandlerC.ServeHTTPC (notranSelect (.error e)) ⟨none⟩ Response.empty
      = (⟨some 500, e ++ "\n"⟩, none) ∧
    (TransactionHandlerC.ServeHTTPC (.ok 1) (.ok ()) (tranSelect (.error e))
      ⟨none⟩ Response.empty).resp = ⟨some 500, e ++ "\n"⟩ ∧
    sendSimpleErrorMessage Response.empty msg
      = ⟨some 500, jsonMessageBody msg⟩ :=
  ⟨rfl, rfl, rfl⟩

/-- C8: every handler defined under the contract satisfies the Handler
Result invariant: a non-nil error comes with a non-2xx status (all use
500), and a nil error comes with status 200, which is exactly the effective
HTTP status the response carries after the handler's own writes. -/
theorem C8_handler_result_invariant (q : Except String String) (id : Nat) :
    handlerResultInvariant (EchoServer ⟨none⟩ Response.empty) ∧
    handlerResultInvariant (helloret ⟨none⟩ Response.empty) ∧
    handlerResultInvariant (EchoDatabase q ⟨some (some id)⟩ Response.empty) ∧
    handlerResultInvariant (hellotran q ⟨some (some id)⟩ Response.empty) ∧
    handlerResultInvariant (tranSelect q ⟨some (some id)⟩ Response.empty) ∧
    handlerResultInvariant (notranSelect q ⟨none⟩ Response.empty) := by
  refine ⟨rfl, rfl, ?_, ?_, ?_, ?_⟩ <;>
    cases q <;>
      simp [handlerResultInvariant, EchoDatabase, hellotran, tranSelect,
        notranSelect, getTx, Response.write, Response.empty]

/-- C9 counterexample: the claim says a finalization (commit/rollback)
failure is always logged.  `transactionMiddleware` discards the result of
`tx.Commit()`: with a failing commit, the log contains only the two header
lines and never the finalization error. -/
theorem C9_counterexample :
    (transactionMiddleware (.ok 1) (.error "commit failed")
      (fun _ w => (w.write "ok", .done)) ⟨none⟩ Response.empty).logs
      = [headerLogMsg, headerLogMsg] ∧
    "commit failed" ∉
      (transactionMiddleware (.ok 1) (.error "commit failed")
        (fun _ w => (w.write "ok", .done)) ⟨none⟩ Response.empty).logs :=
  ⟨rfl, by decide⟩

/-- C9 amended: finalization results are silently discarded by both
wrappers: the whole observable outcome is independent of the
commit/rollback result, so a finalization failure is neither logged nor
written to the response — in particular it never replaces a pre-existing
handler error, whose text stays in the body. -/
theorem C9_amended_finalization_ignored (rbRes commitRes : Except String Unit)
    (e : String) :
    TransactionHandlerC.ServeHTTPC (.ok 1) rbRes (tranSelect (.error e))
      ⟨none⟩ Response.empty
      = TransactionHandlerC.ServeHTTPC (.ok 1) (.ok ())
          (tranSelect (.error e)) ⟨none⟩ Response.empty ∧
    (TransactionHandlerC.ServeHTTPC (.ok 1) rbRes (tranSelect (.error e))
      ⟨none⟩ Response.empty).resp.body = e ++ "\n" ∧
    (TransactionHandlerC.ServeHTTPC (.ok 1) rbRes (tranSelect (.error e))
      ⟨none⟩ Response.empty).logs = [] ∧
    transactionMiddleware (.ok 1) commitRes
      (fun _ w => (w.write "ok", .done)) ⟨none⟩ Response.empty
      = transactionMiddleware (.ok 1) (.ok ())
          (fun _ w => (w.write "ok", .done)) ⟨none⟩ Response.empty :=
  ⟨rfl, rfl, rfl, rfl⟩

/-- C10: when `DB.Begin` fails, the deferred rollback — registered before
the error check — later runs on the nil handle, so the request ends in a
panic during unwinding (after the 500 error response was written and the
handler was, wrongly, still invoked). -/
theorem C10_nil_rollback_panics (e : String) (rbRes : Except String Unit)
    (H : HandlerF) (ctx : Ctx) (w : Response) :
    (TransactionHandlerC.ServeHTTPC (.error e) rbRes H ctx w).nilRollback
      = true ∧
    (TransactionHandlerC.ServeHTTPC (.error e) rbRes H ctx w).panicked
      = some nilDerefMsg ∧
    (TransactionHandlerC.ServeHTTPC (.error e) rbRes H ctx w).rollbacks = 0 ∧
    (TransactionHandlerC.ServeHTTPC (.error e) rbRes H ctx w).commits = 0 :=
  ⟨rfl, rfl, rfl, rfl⟩

end Server
